import Mathlib

/-!
# Faultline: a verification development of the analysis core

Shallow embedding of the `faultline` static analyzer's core data model and
the operations relevant to its specification: the diagnostic record, the
calibration gate, the hypothesis feature extractor, the diagnostic refiner,
the escape model, the cache-line map, and the FL010 / FL050 / FL090 rule
detectors.  Each definition is translated from the C++ source file named in
its doc comment.  C++ `double` confidence values are modelled as exact
rationals; `std::string` as Lean `String` (ASCII contents only appear);
`std::vector` as `List`; iteration order of `unordered_map` is modelled by
the order of an association list.  A C++ exception that the source does not
catch is modelled by `Option.none`.
-/

namespace Faultline

/-! ## Core enums and the diagnostic record
(src/include/faultline/core/Severity.h, src/unnamed/part_011) -/

/-- `enum class Severity : uint8_t` with values 0..3. -/
inductive Severity where
  | informational
  | medium
  | high
  | critical
deriving DecidableEq, Repr

/-- The underlying `uint8_t` value of a severity (used for casts). -/
def Severity.ord : Severity → Nat
  | .informational => 0
  | .medium => 1
  | .high => 2
  | .critical => 3

/-- `enum class EvidenceTier : uint8_t` (Proven = 0, Likely = 1, Speculative = 2). -/
inductive EvidenceTier where
  | proven
  | likely
  | speculative
deriving DecidableEq, Repr

/-- `struct SourceLocation` from src/unnamed/part_011. -/
structure SrcLocation where
  file : String := ""
  line : Nat := 0
  column : Nat := 0
deriving DecidableEq, Repr

/-- `struct Diagnostic` from src/unnamed/part_011, with the C++ in-class
default initializers. -/
structure Diagnostic where
  ruleID : String := ""
  title : String := ""
  severity : Severity := .informational
  confidence : ℚ := 0
  evidenceTier : EvidenceTier := .speculative
  suppressed : Bool := false
  location : SrcLocation := {}
  functionName : String := ""
  hardwareReasoning : String := ""
  structuralEvidence : String := ""
  mitigation : String := ""
  escalations : List String := []
deriving DecidableEq, Repr

/-- `enum class HazardClass : uint8_t` from
src/include/faultline/hypothesis/InteractionModel.h. -/
inductive HazardClass where
  | cacheGeometry
  | falseSharing
  | atomicOrdering
  | atomicContention
  | lockContention
  | heapAllocation
  | stackPressure
  | virtualDispatch
  | stdFunction
  | globalState
  | contendedQueue
  | deepConditional
  | numaLocality
  | centralizedDispatch
  | hazardAmplification
deriving DecidableEq, Repr

/-- `HypothesisConstructor::mapRuleToHazardClass` (src/unnamed/part_002). -/
def mapRuleToHazardClass (ruleID : String) : HazardClass :=
  if ruleID = "FL001" then .cacheGeometry
  else if ruleID = "FL002" then .falseSharing
  else if ruleID = "FL010" then .atomicOrdering
  else if ruleID = "FL011" then .atomicContention
  else if ruleID = "FL012" then .lockContention
  else if ruleID = "FL020" then .heapAllocation
  else if ruleID = "FL021" then .stackPressure
  else if ruleID = "FL030" then .virtualDispatch
  else if ruleID = "FL031" then .stdFunction
  else if ruleID = "FL040" then .globalState
  else if ruleID = "FL041" then .contendedQueue
  else if ruleID = "FL050" then .deepConditional
  else if ruleID = "FL060" then .numaLocality
  else if ruleID = "FL061" then .centralizedDispatch
  else if ruleID = "FL090" then .hazardAmplification
  else .cacheGeometry

/-! ## String-search helpers

`std::string::find` over ASCII strings, modelled on `List Char`. -/

/-- `haystack.find(pat)` scanning from accumulated index `i`:
the first index at which `pat` occurs as a prefix of the remaining
characters, `none` when `pat` does not occur (C++ `npos`). -/
def findSubFrom (pat : List Char) : List Char → Nat → Option Nat
  | [], i => if List.isPrefixOf pat [] then some i else none
  | c :: t, i =>
      if List.isPrefixOf pat (c :: t) then some i
      else findSubFrom pat t (i + 1)

/-- `std::string::find` from position 0. -/
def findSub (hay pat : List Char) : Option Nat :=
  findSubFrom pat hay 0

/-- `pat` occurs as a contiguous substring of `hay`. -/
def ContainsSub (pat hay : List Char) : Prop :=
  ∃ pre post, hay = pre ++ pat ++ post

/-! ## A model of `std::stod` / `std::stoull`

`std::stod` parses an optional sign, then decimal digits with an optional
fraction and an optional exponent; it throws (here: `none`) when no digit
is found.  The hexadecimal, infinity and NaN forms, and the out-of-range
overflow throw, never arise for the numeric evidence fields this program
produces and are not modelled; values are exact rationals. -/

def isDigitChar (c : Char) : Bool := 48 ≤ c.toNat && c.toNat ≤ 57

def isSpaceChar (c : Char) : Bool :=
  c.toNat = 32 || (9 ≤ c.toNat && c.toNat ≤ 13)

/-- Split a leading run of decimal digits from a character list. -/
def takeDigits : List Char → (List Nat × List Char)
  | [] => ([], [])
  | c :: t =>
      if isDigitChar c then
        let (ds, rest) := takeDigits t
        ((c.toNat - 48) :: ds, rest)
      else ([], c :: t)

/-- Digit list to natural number, most significant first. -/
def digitsToNat (ds : List Nat) : Nat :=
  ds.foldl (fun acc d => acc * 10 + d) 0

/-- Optional `+`/`-` sign; returns (negative?, rest). -/
def takeSign : List Char → (Bool × List Char)
  | [] => (false, [])
  | c :: t =>
      if c = '-' then (true, t)
      else if c = '+' then (false, t)
      else (false, c :: t)

/-- Exponent part `eN` / `EN`; when the digits after `e` are missing the
conversion stops before the `e` (exponent 0), as `strtod` does. -/
def takeExponent : List Char → Int
  | c :: t =>
      if c = 'e' ∨ c = 'E' then
        let (neg, t') := takeSign t
        let (ds, _) := takeDigits t'
        if ds = [] then 0
        else if neg then -(digitsToNat ds : Int) else (digitsToNat ds : Int)
      else 0
  | [] => 0

/-- Model of `std::stod` on the extracted token: parses the longest valid
numeric prefix; `none` models the `std::invalid_argument` throw. -/
def parseStod (cs : List Char) : Option ℚ :=
  let cs := cs.dropWhile isSpaceChar
  let (neg, cs) := takeSign cs
  let (intDs, cs) := takeDigits cs
  let (fracDs, cs) :=
    match cs with
    | c :: t => if c = '.' then takeDigits t else ([], cs)
    | [] => ([], cs)
  if intDs = [] ∧ fracDs = [] then none
  else
    let mantissa : ℚ :=
      (digitsToNat intDs : ℚ) + (digitsToNat fracDs : ℚ) / ((10 : ℚ) ^ fracDs.length)
    let e := takeExponent cs
    let value := mantissa * (10 : ℚ) ^ e
    some (if neg then -value else value)

/-- Model of `std::stoull` (base 10): optional sign then digits; `none`
models the `std::invalid_argument` throw; a negative input wraps modulo
`2^64` as the C++ conversion does. -/
def parseStoull (cs : List Char) : Option Nat :=
  let cs := cs.dropWhile isSpaceChar
  let (neg, cs) := takeSign cs
  let (ds, _) := takeDigits cs
  if ds = [] then none
  else
    let v := digitsToNat ds % 2 ^ 64
    some (if neg then (2 ^ 64 - v) % 2 ^ 64 else v)

/-! ## Feature extraction
(`HypothesisConstructor::extractFeatures`, src/unnamed/part_002) -/

/-- Separator set of `find_first_of(";, ", pos)`. -/
def isSepChar (c : Char) : Bool := c = ';' || c = ',' || c.toNat = 32

/-- The `extract` lambda of `extractFeatures`: locate `key=`, cut the value
at the first of `;`, `,` or space, strip a trailing `B`, and parse it;
an absent key or a failed parse yields `0.0`. -/
def extractEvidenceValue (ev : String) (key : String) : ℚ :=
  match findSub ev.data (key.data ++ ['=']) with
  | none => 0
  | some pos =>
      let start := pos + key.length + 1
      let val := (ev.data.drop start).takeWhile (fun c => !isSepChar c)
      let val := if val.getLastD 'A' = 'B' then val.dropLast else val
      match parseStod val with
      | some q => q
      | none => 0

/-- The seven structural-evidence keys, in `push_back` order. -/
def featureKeys : List String :=
  ["sizeof", "cache_lines", "atomic_writes", "mutable_fields",
   "estimated_frame", "depth", "callees"]

/-- `HypothesisConstructor::extractFeatures` (src/unnamed/part_002):
severity ordinal, confidence, escalation count, then the seven parsed
evidence values. -/
def extractFeatures (d : Diagnostic) : List ℚ :=
  [(d.severity.ord : ℚ), d.confidence, (d.escalations.length : ℚ)]
    ++ featureKeys.map (extractEvidenceValue d.structuralEvidence)

/-! ## Calibration store and gate
(`CalibrationFeedbackStore::isKnownFalsePositive`, src/unnamed/part_003;
the suppression pass of `main`, src/src/main.cpp) -/

/-- `CalibrationFeedbackStore::FalsePositiveEntry`. -/
structure FalsePositiveEntry where
  features : List ℚ
  hazardClass : HazardClass
  reason : String
  refutationCount : Nat
deriving DecidableEq, Repr

/-- The false-positive registry of a `CalibrationFeedbackStore`. -/
structure CalibrationFeedbackStore where
  falsePositiveRegistry : List FalsePositiveEntry
deriving DecidableEq, Repr

/-- `CalibrationFeedbackStore::isKnownFalsePositive`: scans the registry,
skips entries of a different hazard class or with fewer than 3
refutations, and answers `true` at the first remaining entry.  The
`features` argument is never consulted. -/
def isKnownFalsePositive (store : CalibrationFeedbackStore)
    (_features : List ℚ) (hc : HazardClass) : Bool :=
  store.falsePositiveRegistry.any
    (fun e => e.hazardClass = hc && 3 ≤ e.refutationCount)

/-- The `remove_if` predicate of the calibration suppression pass in
`main` (src/src/main.cpp lines 491-522): the safety rail keeps every
High/Critical + Proven diagnostic; otherwise the store decides. -/
def gateRemoves (store : CalibrationFeedbackStore) (d : Diagnostic) : Bool :=
  let hc := mapRuleToHazardClass d.ruleID
  let features := extractFeatures d
  let highSev := d.severity = Severity.critical || d.severity = Severity.high
  let proven := d.evidenceTier = EvidenceTier.proven
  if highSev && proven then false
  else isKnownFalsePositive store features hc

/-- `diagnostics.erase(remove_if ...)`: the surviving diagnostics in order. -/
def calibrationGate (store : CalibrationFeedbackStore)
    (diags : List Diagnostic) : List Diagnostic :=
  diags.filter (fun d => !gateRemoves store d)

/-! ## IR function profiles
(src/include/faultline/ir/IRFunctionProfile.h) -/

/-- `IRAtomicInfo::Op`. -/
inductive IRAtomicOp where
  | load
  | store
  | rmw
  | cmpXchg
  | fence
deriving DecidableEq, Repr

/-- `struct IRAtomicInfo`. -/
structure IRAtomicInfo where
  op : IRAtomicOp
  ordering : Nat := 0
  isInLoop : Bool := false
  sourceFile : String := ""
  sourceLine : Nat := 0
deriving DecidableEq, Repr

/-- `llvm::AtomicOrdering::SequentiallyConsistent` as `unsigned`. -/
def seqCstOrdering : Nat := 7

/-- `struct IRAllocaInfo`. -/
structure IRAllocaInfo where
  name : String := ""
  sizeBytes : Nat := 0
  isArray : Bool := false
deriving DecidableEq, Repr

/-- `struct IRCallSiteInfo`. -/
structure IRCallSiteInfo where
  calleeName : String := ""
  isIndirect : Bool := false
  isIntrinsic : Bool := false
  isInLoop : Bool := false
deriving DecidableEq, Repr

/-- `struct IRFunctionProfile`. -/
structure IRFunctionProfile where
  mangledName : String := ""
  demangledName : String := ""
  totalAllocaBytes : Nat := 0
  allocas : List IRAllocaInfo := []
  heapAllocCalls : List IRCallSiteInfo := []
  indirectCallCount : Nat := 0
  directCallCount : Nat := 0
  atomics : List IRAtomicInfo := []
  fenceCount : Nat := 0
  seqCstCount : Nat := 0
  basicBlockCount : Nat := 0
  loopCount : Nat := 0
deriving DecidableEq, Repr

/-- `IRAnalyzer::ProfileMap` (`unordered_map<string, IRFunctionProfile>`);
the association-list order models the map's iteration order. -/
abbrev ProfileMap := List (String × IRFunctionProfile)

/-! ## Diagnostic Refiner
(src/src/ir/DiagnosticRefiner.cpp, constants from src/unnamed/part_009) -/

namespace evidence

def kSiteConfirmed : ℚ := 1/10
def kFunctionConfirmed : ℚ := 1/20
def kOptimizedAway : ℚ := -(1/5)
def kHeapSurvived : ℚ := 1/20
def kHeapEliminated : ℚ := -(3/20)
def kIndirectConfirmed : ℚ := 1/10
def kFullyDevirtualized : ℚ := -(1/4)
def kLockConfirmed : ℚ := 1/20
def kStackConfirmed : ℚ := 1/10
def kFloor : ℚ := 1/10
def kCeilingSiteProven : ℚ := 49/50
def kCeilingFuncLevel : ℚ := 19/20
def kCeilingModerate : ℚ := 23/25
def kFloorOptimizedAway : ℚ := 3/10
def kFloorDevirtualized : ℚ := 3/10
def kFloorHeapEliminated : ℚ := 2/5
def kFloorIndirectGone : ℚ := 7/20

end evidence

/-- `std::clamp(v, lo, hi)`. -/
def clampQ (v lo hi : ℚ) : ℚ :=
  if v < lo then lo else if hi < v then hi else v

/-- `DiagnosticRefiner::filePathSuffixMatch`.  C++ `size()` counts bytes;
contents are ASCII, so `String.length` agrees. -/
def filePathSuffixMatch (a b : String) : Bool :=
  let longer := if b.length ≤ a.length then a else b
  let shorter := if b.length ≤ a.length then b else a
  if shorter.length = 0 then false
  else if longer = shorter then true
  else if longer.length ≤ shorter.length then false
  else
    let pos := longer.length - shorter.length
    decide (longer.data.drop pos = shorter.data) &&
      decide (((longer.data.drop (pos - 1)).headD 'A') = '/')

/-- The value after an evidence key: characters up to the next `;`
(`find(';', pos)`, to the end when absent). -/
def evidenceValueFrom (ev : List Char) (pos : Nat) : String :=
  ⟨(ev.drop pos).takeWhile (fun c => !(c = ';'))⟩

/-- `DiagnosticRefiner::extractFunctionName`: the diagnostic's function
name, else the legacy `function=` / `caller=` evidence fallback. -/
def extractFunctionName (d : Diagnostic) : String :=
  if ¬ d.functionName = "" then d.functionName
  else
    match findSub d.structuralEvidence.data "function=".data with
    | some pos => evidenceValueFrom d.structuralEvidence.data (pos + 9)
    | none =>
        match findSub d.structuralEvidence.data "caller=".data with
        | some pos => evidenceValueFrom d.structuralEvidence.data (pos + 7)
        | none => ""

/-- Qualified suffix match at a `::` boundary, from
`DiagnosticRefiner::findProfile`. -/
def qualifiedSuffixMatch (dn funcName : String) : Bool :=
  if funcName.length < dn.length then
    let pos := dn.length - funcName.length
    decide (dn.data.drop pos = funcName.data) &&
      decide (2 ≤ pos) &&
      decide ((dn.data.drop (pos - 1)).headD 'A' = ':') &&
      decide ((dn.data.drop (pos - 2)).headD 'A' = ':')
  else false

/-- `DiagnosticRefiner::findProfile`: exact demangled match, then
qualified suffix match, then exact mangled-key lookup. -/
def findProfile (profiles : ProfileMap) (funcName : String) :
    Option IRFunctionProfile :=
  if funcName = "" then none
  else
    match profiles.find? (fun p => p.2.demangledName == funcName) with
    | some p => some p.2
    | none =>
        match profiles.find? (fun p => qualifiedSuffixMatch p.2.demangledName funcName) with
        | some p => some p.2
        | none => (profiles.find? (fun p => p.1 == funcName)).map (·.2)

/-- The name printed for a site-confirmed atomic op in `refineFL010`. -/
def siteOpName : IRAtomicOp → String
  | .store => "store"
  | .rmw => "rmw"
  | .cmpXchg => "cmpxchg"
  | .fence => "fence"
  | .load => "atomic"

/-- `DiagnosticRefiner::refineFL010`. -/
def refineFL010 (profiles : ProfileMap) (diag : Diagnostic) : Diagnostic :=
  match findProfile profiles (extractFunctionName diag) with
  | none => diag
  | some profile =>
      let diagLine := diag.location.line
      let diagFile := diag.location.file
      let hit := profile.atomics.find? (fun ai =>
        !(ai.sourceLine == 0) && ai.sourceLine == diagLine &&
        (diagFile == "" || ai.sourceFile == "" ||
          filePathSuffixMatch diagFile ai.sourceFile) &&
        ai.ordering == seqCstOrdering)
      let d1 :=
        match hit with
        | some ai =>
            { diag with
              confidence := clampQ (diag.confidence + evidence.kSiteConfirmed)
                evidence.kFloor evidence.kCeilingSiteProven,
              evidenceTier := .proven,
              escalations := diag.escalations ++
                ["IR site-confirmed: seq_cst " ++ siteOpName ai.op ++
                 " at line " ++ toString diagLine ++ " survives lowering"] }
        | none =>
            if 0 < profile.seqCstCount then
              { diag with
                confidence := clampQ (diag.confidence + evidence.kFunctionConfirmed)
                  evidence.kFloor evidence.kCeilingModerate,
                escalations := diag.escalations ++
                  ["IR confirmed: " ++ toString profile.seqCstCount ++
                   " seq_cst instruction(s) in function (no exact line match)"] }
            else if ¬ profile.atomics = [] then
              { diag with
                confidence := clampQ (diag.confidence + evidence.kOptimizedAway)
                  evidence.kFloorOptimizedAway evidence.kCeilingSiteProven,
                escalations := diag.escalations ++
                  ["IR refinement: no seq_cst instructions emitted — compiler may have optimized ordering"] }
            else diag
      if 0 < profile.fenceCount then
        { d1 with escalations := d1.escalations ++
            ["IR confirmed: " ++ toString profile.fenceCount ++
             " explicit fence instruction(s)"] }
      else d1

/-- Is this IR atomic op an atomic write (Store, RMW, CmpXchg)? -/
def isAtomicWrite (ai : IRAtomicInfo) : Bool :=
  ai.op == .store || ai.op == .rmw || ai.op == .cmpXchg

/-- `DiagnosticRefiner::refineFL011`. -/
def refineFL011 (profiles : ProfileMap) (diag : Diagnostic) : Diagnostic :=
  match findProfile profiles (extractFunctionName diag) with
  | none => diag
  | some profile =>
      let writes := profile.atomics.filter isAtomicWrite
      let atomicWriteCount := writes.length
      let loopAtomics := (writes.filter (·.isInLoop)).length
      let siteMatched := (writes.filter (fun ai => decide (0 < ai.sourceLine))).length
      if 0 < atomicWriteCount then
        let msg := "IR confirmed: " ++ toString atomicWriteCount ++
          " atomic write instruction(s)" ++
          (if 0 < loopAtomics then
            ", " ++ toString loopAtomics ++ " in loop back-edge blocks" else "") ++
          (if 0 < siteMatched then
            " (" ++ toString siteMatched ++ " with debug-loc site mapping)" else "")
        { diag with
          confidence := clampQ (diag.confidence + evidence.kSiteConfirmed)
            evidence.kFloor evidence.kCeilingFuncLevel,
          evidenceTier := if 0 < siteMatched then .proven else diag.evidenceTier,
          escalations := diag.escalations ++ [msg] }
      else diag

/-- `DiagnosticRefiner::refineFL020`. -/
def refineFL020 (profiles : ProfileMap) (diag : Diagnostic) : Diagnostic :=
  match findProfile profiles (extractFunctionName diag) with
  | none => diag
  | some profile =>
      let direct := profile.heapAllocCalls.filter (fun c => !c.isIndirect)
      let heapCalls := direct.length
      let loopHeapCalls := (direct.filter (·.isInLoop)).length
      if 0 < heapCalls then
        let msg := "IR confirmed: " ++ toString heapCalls ++
          " heap alloc/free call(s) after inlining" ++
          (if 0 < loopHeapCalls then
            ", " ++ toString loopHeapCalls ++ " in loop blocks" else "")
        { diag with
          confidence := clampQ (diag.confidence + evidence.kHeapSurvived)
            evidence.kFloor evidence.kCeilingSiteProven,
          escalations := diag.escalations ++ [msg] }
      else
        { diag with
          confidence := clampQ (diag.confidence + evidence.kHeapEliminated)
            evidence.kFloorHeapEliminated evidence.kCeilingSiteProven,
          escalations := diag.escalations ++
            ["IR refinement: no heap alloc calls found after inlining — allocation may have been optimized away"] }

/-- The large-alloca suffix of the FL021 escalation message. -/
def largeAllocaSuffix (allocas : List IRAllocaInfo) : String :=
  allocas.foldl (fun acc a =>
    if 256 ≤ a.sizeBytes then
      acc ++ " [" ++ a.name ++ "=" ++ toString a.sizeBytes ++ "B]"
    else acc) ""

/-- `DiagnosticRefiner::refineFL021`.  `std::stoull` on a non-numeric
`estimated_frame=` value throws out of the refiner; that path is `none`. -/
def refineFL021 (profiles : ProfileMap) (diag : Diagnostic) :
    Option Diagnostic :=
  match findProfile profiles (extractFunctionName diag) with
  | none => some diag
  | some profile =>
      let irStackSize := profile.totalAllocaBytes
      if irStackSize < 2048 ∧ 0 < irStackSize then
        some { diag with
          suppressed := true,
          escalations := diag.escalations ++
            ["IR suppressed: actual stack frame " ++ toString irStackSize ++
             "B (below " ++ toString 2048 ++
             "B threshold) — AST estimate was inaccurate"] }
      else
        let d1 := { diag with escalations := diag.escalations ++
          ["IR confirmed: stack frame " ++ toString irStackSize ++ "B from " ++
           toString profile.allocas.length ++ " alloca(s)" ++
           largeAllocaSuffix profile.allocas] }
        let astEstimateOpt :=
          match findSub diag.structuralEvidence.data "estimated_frame=".data with
          | none => some 0
          | some pos => parseStoull (diag.structuralEvidence.data.drop (pos + 16))
        match astEstimateOpt with
        | none => none
        | some astEstimate =>
            if 0 < irStackSize then
              let d2 := { d1 with
                confidence := clampQ (d1.confidence + evidence.kStackConfirmed)
                  evidence.kFloor evidence.kCeilingFuncLevel,
                evidenceTier := .proven,
                structuralEvidence := d1.structuralEvidence ++
                  "; ir_frame=" ++ toString irStackSize ++ "B" ++
                  "; ir_allocas=" ++ toString profile.allocas.length }
              if 0 < astEstimate ∧ astEstimate * 2 % 2 ^ 64 < irStackSize then
                some { d2 with escalations := d2.escalations ++
                  ["IR stack frame (" ++ toString irStackSize ++
                   "B) exceeds AST estimate (" ++ toString astEstimate ++
                   "B) — compiler-generated temporaries or alignment padding"] }
              else some d2
            else some d1

/-- `DiagnosticRefiner::refineFL030`. -/
def refineFL030 (profiles : ProfileMap) (diag : Diagnostic) : Diagnostic :=
  match findProfile profiles (extractFunctionName diag) with
  | none => diag
  | some profile =>
      if 0 < profile.indirectCallCount then
        { diag with
          confidence := clampQ (diag.confidence + evidence.kIndirectConfirmed)
            evidence.kFloor evidence.kCeilingFuncLevel,
          escalations := diag.escalations ++
            ["IR confirmed: " ++ toString profile.indirectCallCount ++
             " indirect call(s) remain after devirtualization"] }
      else if 0 < profile.directCallCount then
        { diag with
          confidence := clampQ (diag.confidence + evidence.kFullyDevirtualized)
            evidence.kFloorDevirtualized evidence.kCeilingSiteProven,
          escalations := diag.escalations ++
            ["IR refinement: all calls devirtualized to direct — BTB pressure eliminated by compiler"] }
      else diag

/-- `DiagnosticRefiner::refineFL031`. -/
def refineFL031 (profiles : ProfileMap) (diag : Diagnostic) : Diagnostic :=
  match findProfile profiles (extractFunctionName diag) with
  | none => diag
  | some profile =>
      if 0 < profile.indirectCallCount then
        { diag with
          confidence := clampQ (diag.confidence + evidence.kIndirectConfirmed)
            evidence.kFloor evidence.kCeilingFuncLevel,
          escalations := diag.escalations ++
            ["IR confirmed: " ++ toString profile.indirectCallCount ++
             " indirect call(s) — type-erased dispatch not eliminated"] }
      else
        { diag with
          confidence := clampQ (diag.confidence + evidence.kOptimizedAway)
            evidence.kFloorIndirectGone evidence.kCeilingSiteProven,
          escalations := diag.escalations ++
            ["IR refinement: no indirect calls found — std::function may have been devirtualized or inlined"] }

/-- `DiagnosticRefiner::refineFL012`. -/
def refineFL012 (profiles : ProfileMap) (diag : Diagnostic) : Diagnostic :=
  match findProfile profiles (extractFunctionName diag) with
  | none => diag
  | some profile =>
      let diagLine := diag.location.line
      let hasMutexCall := profile.heapAllocCalls.any (fun csi =>
        (findSub csi.calleeName.data "pthread_mutex".data).isSome ||
        (findSub csi.calleeName.data "__gthread_mutex".data).isSome)
      let cmpxchgs := profile.atomics.filter (fun ai => ai.op == .cmpXchg)
      let hasAtomicCmpXchg := !cmpxchgs.isEmpty
      let siteCorrelated := cmpxchgs.any (fun ai =>
        ai.sourceLine == diagLine && decide (0 < diagLine))
      if hasMutexCall || hasAtomicCmpXchg then
        let detail0 := if hasMutexCall then "pthread_mutex call"
          else "atomic cmpxchg (lock internals)"
        let detail := if siteCorrelated then
          detail0 ++ " at line " ++ toString diagLine else detail0
        { diag with
          confidence := clampQ (diag.confidence + evidence.kLockConfirmed)
            evidence.kFloor evidence.kCeilingFuncLevel,
          evidenceTier := if siteCorrelated then .proven else diag.evidenceTier,
          escalations := diag.escalations ++
            ["IR confirmed: " ++ detail ++ " present in lowered IR"] }
      else diag

/-- `DiagnosticRefiner::refineFL090`: module-wide aggregate escalation. -/
def refineFL090 (profiles : ProfileMap) (diag : Diagnostic) : Diagnostic :=
  let totalAtomicWrites : Nat := (profiles.map (fun p =>
    (p.2.atomics.filter isAtomicWrite).length)).sum
  let totalIndirectCalls : Nat := (profiles.map (fun p => p.2.indirectCallCount)).sum
  let totalFences : Nat := (profiles.map (fun p => p.2.fenceCount)).sum
  if 0 < totalAtomicWrites ∨ 0 < totalFences then
    { diag with escalations := diag.escalations ++
        ["IR aggregate: " ++ toString totalAtomicWrites ++
         " atomic write(s), " ++ toString totalFences ++ " fence(s), " ++
         toString totalIndirectCalls ++ " indirect call(s) across module"] }
  else diag

/-- The rule-id dispatch of `DiagnosticRefiner::refine` for one
diagnostic; `none` models an exception escaping `refineFL021`. -/
def refineOne (profiles : ProfileMap) (d : Diagnostic) : Option Diagnostic :=
  if d.ruleID = "FL010" then some (refineFL010 profiles d)
  else if d.ruleID = "FL011" then some (refineFL011 profiles d)
  else if d.ruleID = "FL012" then some (refineFL012 profiles d)
  else if d.ruleID = "FL020" then some (refineFL020 profiles d)
  else if d.ruleID = "FL021" then refineFL021 profiles d
  else if d.ruleID = "FL030" then some (refineFL030 profiles d)
  else if d.ruleID = "FL031" then some (refineFL031 profiles d)
  else if d.ruleID = "FL090" then some (refineFL090 profiles d)
  else some d

/-- `DiagnosticRefiner::refine` over the diagnostic vector. -/
def refine (profiles : ProfileMap) (diags : List Diagnostic) :
    Option (List Diagnostic) :=
  diags.mapM (refineOne profiles)

/-! ## Escape model
(`EscapeAnalysis`, src/unnamed/part_005 — the AST-structural
implementation, which the specification designates as normative)

The source classifies a field's canonical type with `isAtomicType`,
`isSyncType`, `isSharedOwnershipType`, `isFunctionPointerType` and a
`std::function` template check; `FieldTy` records the outcome of that
classification for a field whose type is not a nested record. -/

/-- Classification of a field's canonical type by the source's type
predicates. -/
inductive FieldTy where
  /-- `std::atomic<T>` / `std::atomic_ref<T>` / C11 `_Atomic`. -/
  | atomicTy
  /-- A standard or POSIX synchronization primitive. -/
  | syncTy
  /-- `std::shared_ptr<T>` or `std::weak_ptr<T>`. -/
  | sharedOwnTy
  /-- `std::function<Sig>`. -/
  | stdFunctionTy
  /-- A bare function pointer. -/
  | functionPtrTy
  /-- Any other non-record type. -/
  | otherTy
deriving DecidableEq, Repr

/-- A `FieldDecl`: its classified type, its qualifiers, and the
`mutable` keyword. -/
structure FieldDecl where
  ty : FieldTy
  isVolatile : Bool := false
  isMutableKw : Bool := false
  isConst : Bool := false
deriving DecidableEq, Repr

/-- A `CXXRecordDecl`: completeness, direct fields, direct bases. -/
inductive CXXRecord where
  | mk (complete : Bool) (fields : List FieldDecl) (bases : List CXXRecord)

def CXXRecord.complete : CXXRecord → Bool
  | .mk c _ _ => c

def CXXRecord.fields : CXXRecord → List FieldDecl
  | .mk _ fs _ => fs

def CXXRecord.bases : CXXRecord → List CXXRecord
  | .mk _ _ bs => bs

mutual
/-- `EscapeAnalysis::hasAtomicMembers`: a direct atomic field, or
recursively through any direct base. -/
def hasAtomicMembers : CXXRecord → Bool
  | .mk complete fields bases =>
      if !complete then false
      else fields.any (fun f => f.ty == .atomicTy) || hasAtomicMembersL bases
def hasAtomicMembersL : List CXXRecord → Bool
  | [] => false
  | b :: bs => hasAtomicMembers b || hasAtomicMembersL bs
end

mutual
/-- `EscapeAnalysis::hasSyncPrimitives`. -/
def hasSyncPrimitives : CXXRecord → Bool
  | .mk complete fields bases =>
      if !complete then false
      else fields.any (fun f => f.ty == .syncTy) || hasSyncPrimitivesL bases
def hasSyncPrimitivesL : List CXXRecord → Bool
  | [] => false
  | b :: bs => hasSyncPrimitives b || hasSyncPrimitivesL bs
end

mutual
/-- `EscapeAnalysis::hasSharedOwnershipMembers`. -/
def hasSharedOwnershipMembers : CXXRecord → Bool
  | .mk complete fields bases =>
      if !complete then false
      else fields.any (fun f => f.ty == .sharedOwnTy) || hasSharedOwnershipMembersL bases
def hasSharedOwnershipMembersL : List CXXRecord → Bool
  | [] => false
  | b :: bs => hasSharedOwnershipMembers b || hasSharedOwnershipMembersL bs
end

mutual
/-- `EscapeAnalysis::hasVolatileMembers`. -/
def hasVolatileMembers : CXXRecord → Bool
  | .mk complete fields bases =>
      if !complete then false
      else fields.any (fun f => f.isVolatile) || hasVolatileMembersL bases
def hasVolatileMembersL : List CXXRecord → Bool
  | [] => false
  | b :: bs => hasVolatileMembers b || hasVolatileMembersL bs
end

/-- `EscapeAnalysis::hasCallbackMembers`: a direct field that is a bare
function pointer or a `std::function`.  Note: direct fields only — this
predicate does not recurse into bases. -/
def hasCallbackMembers (rd : CXXRecord) : Bool :=
  if !rd.complete then false
  else rd.fields.any (fun f =>
    f.ty == .functionPtrTy || f.ty == .stdFunctionTy)

/-- `EscapeAnalysis::mayEscapeThread` (src/unnamed/part_005 lines
126-140): atomics, sync primitives, shared ownership, volatile.  The
`hasCallbackMembers` predicate is not consulted. -/
def mayEscapeThread (rd : CXXRecord) : Bool :=
  hasAtomicMembers rd || hasSyncPrimitives rd ||
    hasSharedOwnershipMembers rd || hasVolatileMembers rd

/-- `EscapeAnalysis::isFieldMutable`: the `mutable` keyword, or a
non-const-qualified type. -/
def isFieldMutable (f : FieldDecl) : Bool :=
  if f.isMutableKw then true
  else if !f.isConst then true
  else false

/-! ## FL090 — Hazard Amplification
(`FL090_HazardAmplification::analyze`, src/src/rules/FL090_HazardAmplification.cpp) -/

/-- The record declaration as FL090 sees it: the record structure for the
escape analysis, the layout size, and the declaration metadata. -/
structure RecordDeclInfo where
  name : String
  record : CXXRecord
  sizeBytes : Nat
  isImplicit : Bool := false
  isLambda : Bool := false
  locValid : Bool := true
  file : String := ""
  line : Nat := 0
  column : Nat := 0

/-- The three structural signals of FL090: size above 128 bytes, atomic
members, thread escape. -/
def fl090SignalCount (rd : RecordDeclInfo) : Nat :=
  (if 128 < rd.sizeBytes then 1 else 0) +
  (if hasAtomicMembers rd.record then 1 else 0) +
  (if mayEscapeThread rd.record then 1 else 0)

/-- `FL090_HazardAmplification::analyze`.  Emits at most one diagnostic;
`evidenceTier` is left at the `Diagnostic` default. -/
def fl090Analyze (rd : RecordDeclInfo) : List Diagnostic :=
  if !rd.record.complete then []
  else if rd.isImplicit || rd.isLambda then []
  else
    let sizeBytes := rd.sizeBytes
    let signalCount := fl090SignalCount rd
    if signalCount < 3 then []
    else
      let mutableCount := (rd.record.fields.filter isFieldMutable).length
      let escalations :=
        ["sizeof=" ++ toString sizeBytes ++ "B (>" ++ toString 128 ++
           "B): spans " ++ toString ((sizeBytes + 63) / 64) ++ " cache lines",
         "Contains atomic fields: cross-core RFO traffic on every write",
         "Thread-escaping: coherence traffic amplified across all participating cores"] ++
        (if 4 < mutableCount then
          [toString mutableCount ++
           " mutable fields: wide write surface across multiple cache lines"]
         else [])
      [{ ruleID := "FL090",
         title := "Hazard Amplification",
         severity := .critical,
         confidence := 9/10,
         location := if rd.locValid then
             { file := rd.file, line := rd.line, column := rd.column }
           else {},
         hardwareReasoning := "Struct '" ++ rd.name ++ "' (" ++
           toString sizeBytes ++
           "B) exhibits compound hazard: large footprint spanning " ++
           toString ((sizeBytes + 63) / 64) ++
           " cache lines, atomic fields triggering cross-core RFO, and thread-escaping access pattern. Under multi-core contention, these hazards interact nonlinearly: coherence invalidation storms across multiple lines, store buffer saturation from atomic writes, and elevated LLC eviction pressure.",
         structuralEvidence := "struct=" ++ rd.name ++
           "; sizeof=" ++ toString sizeBytes ++ "B" ++
           "; cache_lines=" ++ toString ((sizeBytes + 63) / 64) ++
           "; atomics=yes; thread_escape=yes" ++
           "; mutable_fields=" ++ toString mutableCount ++
           "; signal_count=" ++ toString signalCount,
         mitigation := "Decompose into separate cache-line-aligned sub-structures. Isolate atomic fields with alignas(64) padding. Split hot (frequently written) and cold (rarely accessed) fields. Consider per-core replicas with periodic merge. AoS→SoA transformation to separate write-heavy channels.",
         escalations := escalations }]

/-! ## Cache-Line Map
(`CacheLineMap`, src/src/analysis/CacheLineMap.cpp)

`collectFields` walks bases and fields, producing for each (sub-)field its
absolute byte offset and byte size; `CacheFieldInput` is one step of that
walk.  Bucketing (`buildBuckets`) is embedded below. -/

/-- One field as the `collectFields` walk delivers it: absolute offset,
byte size, atomic and mutable classification. -/
structure CacheFieldInput where
  name : String := ""
  offsetBytes : Nat
  sizeBytes : Nat
  isAtomic : Bool := false
  isMutable : Bool := true
deriving DecidableEq, Repr

/-- `struct FieldLineEntry` (offsets, bucket range, flags). -/
structure FieldLineEntry where
  name : String
  offsetBytes : Nat
  sizeBytes : Nat
  startLine : Nat
  endLine : Nat
  straddles : Bool
  isAtomic : Bool
  isMutable : Bool
deriving DecidableEq, Repr

/-- The entry computed for one field in `CacheLineMap::collectFields`:
`startLine = offset / L`, `endLine = (offset + size - 1) / L` (guarding
`endByte = 0`). -/
def mkFieldLineEntry (cacheLineBytes : Nat) (f : CacheFieldInput) :
    FieldLineEntry :=
  let startLine := f.offsetBytes / cacheLineBytes
  let endByte := f.offsetBytes + f.sizeBytes
  let endLine := if 0 < endByte then (endByte - 1) / cacheLineBytes
    else startLine
  { name := f.name, offsetBytes := f.offsetBytes, sizeBytes := f.sizeBytes,
    startLine := startLine, endLine := endLine,
    straddles := !(startLine == endLine),
    isAtomic := f.isAtomic, isMutable := f.isMutable }

/-- `struct CacheLineBucket`. -/
structure CacheLineBucket where
  lineIndex : Nat
  fields : List FieldLineEntry
  atomicCount : Nat
  mutableCount : Nat
deriving DecidableEq, Repr

/-- The entries placed into bucket `i` by the `buildBuckets` loops
(`line = f.startLine .. min(f.endLine, linesSpanned-1)`), in field order. -/
def bucketFields (fields : List FieldLineEntry) (i : Nat) :
    List FieldLineEntry :=
  fields.filter (fun f => decide (f.startLine ≤ i) && decide (i ≤ f.endLine))

/-- Bucket `i` with its per-line atomic and mutable counts. -/
def mkBucket (fields : List FieldLineEntry) (i : Nat) : CacheLineBucket :=
  let fs := bucketFields fields i
  { lineIndex := i, fields := fs,
    atomicCount := (fs.filter (·.isAtomic)).length,
    mutableCount := (fs.filter (·.isMutable)).length }

/-- The computed state of a `CacheLineMap`. -/
structure CacheLineMapState where
  cacheLineBytes : Nat
  sizeBytes : Nat
  linesSpanned : Nat
  fields : List FieldLineEntry
  buckets : List CacheLineBucket
deriving DecidableEq, Repr

/-- The `CacheLineMap` constructor for a complete record:
`linesSpanned = ceil(sizeBytes / L)`, field entries in walk order,
buckets `0 .. linesSpanned - 1`. -/
def cacheLineMap (cacheLineBytes sizeBytes : Nat)
    (inputs : List CacheFieldInput) : CacheLineMapState :=
  let linesSpanned := (sizeBytes + cacheLineBytes - 1) / cacheLineBytes
  let fields := inputs.map (mkFieldLineEntry cacheLineBytes)
  { cacheLineBytes := cacheLineBytes, sizeBytes := sizeBytes,
    linesSpanned := linesSpanned, fields := fields,
    buckets := (List.range linesSpanned).map (mkBucket fields) }

/-! ## FL010 — Overly Strong Atomic Ordering
(`FL010_OverlyStrongOrdering::analyze`,
src/src/rules/FL010_OverlyStrongOrdering.cpp lines 211-250)

The `SeqCstVisitor` has already classified each seq_cst site; the
embedding covers the per-site emission loop of `analyze`. -/

/-- `enum class AtomicOpClass`. -/
inductive AtomicOpClass where
  | load
  | store
  | rmw
deriving DecidableEq, Repr

/-- `struct SeqCstSite`. -/
structure SeqCstSite where
  locValid : Bool := true
  locFile : String := ""
  locLine : Nat := 0
  locColumn : Nat := 0
  atomicOp : String := ""
  varName : String := ""
  opClass : AtomicOpClass := .rmw
  inLoop : Nat := 0
deriving DecidableEq, Repr

/-- The body of the emission loop of `FL010::analyze` for one site;
`atomicCount` is the total site count of the function. -/
def fl010EmitSite (qualName : String) (atomicCount : Nat)
    (site : SeqCstSite) : List Diagnostic :=
  if site.opClass == .load then []
  else
    let isStore := site.opClass == .store
    let sevConf : Severity × ℚ × List String :=
      if 0 < site.inLoop ∧ isStore = true then
        (.critical, 9/10,
         ["seq_cst store inside loop: XCHG per iteration, sustained store buffer drain"])
      else if 0 < site.inLoop then
        (.high, (if isStore then (17/20 : ℚ) else 11/20),
         ["seq_cst RMW inside loop: LOCK-prefixed op per iteration (same cost as acq_rel on x86-64, but prevents compiler reordering optimizations)"])
      else
        ((if isStore then Severity.high else .medium),
         (if isStore then (17/20 : ℚ) else 11/20), [])
    let escalations := sevConf.2.2 ++
      (if 1 < atomicCount then
        [toString atomicCount ++ " seq_cst operations in function: cumulative serialization"]
       else [])
    [{ ruleID := "FL010",
       title := "Overly Strong Atomic Ordering",
       severity := sevConf.1,
       confidence := sevConf.2.1,
       evidenceTier := if isStore then .likely else .speculative,
       location := if site.locValid then
           { file := site.locFile, line := site.locLine, column := site.locColumn }
         else {},
       hardwareReasoning :=
         if isStore then
           "seq_cst store on '" ++ site.varName ++ "' in '" ++ qualName ++
           "': lowers to XCHG on x86-64 (implicit LOCK prefix, store buffer drain). release ordering would emit plain MOV with zero fence cost on TSO."
         else
           "seq_cst " ++ site.atomicOp ++ " on '" ++ site.varName ++
           "' in '" ++ qualName ++
           "': lowers to LOCK-prefixed instruction on x86-64. On TSO, acq_rel RMW emits the same LOCK-prefixed op — no runtime cost difference, but seq_cst prevents compiler reordering across the operation.",
       structuralEvidence := "op=" ++ site.atomicOp ++
         "; op_class=" ++ (if isStore then "store" else "rmw") ++
         "; var=" ++ site.varName ++
         "; ordering=seq_cst" ++
         "; function=" ++ qualName ++
         "; in_loop=" ++ (if 0 < site.inLoop then "yes" else "no") ++
         "; total_seq_cst_in_func=" ++ toString atomicCount,
       mitigation :=
         if isStore then
           "Use memory_order_release for stores where total order is not required. On x86-64 TSO, release stores emit plain MOV (zero fence cost). Verify no downstream load depends on SC total order before weakening."
         else
           "Use memory_order_acq_rel for RMW if total order is not required. On x86-64, runtime cost is identical (LOCK prefix either way), but weaker ordering enables compiler reordering optimizations around the operation.",
       escalations := escalations }]

/-- `FL010_OverlyStrongOrdering::analyze`: guards (body present, hot,
sites found by the visitor), then the per-site emission loop. -/
def fl010Analyze (qualName : String) (hasBody isHot : Bool)
    (sites : List SeqCstSite) : List Diagnostic :=
  if !hasBody then []
  else if !isHot then []
  else if sites.isEmpty then []
  else (sites.map (fl010EmitSite qualName sites.length)).flatten

/-! ## FL050 — Deep Conditional Tree
(`BranchDepthVisitor` and `FL050_DeepConditionalTree::analyze`,
src/src/rules/FL050_DeepConditionalTree.cpp)

Statements are modelled by their branch structure; a statement's
`SourceLocation` is modelled by its line (column 0). -/

/-- A statement as the branch-depth traversal sees it. -/
inductive Stmt where
  | ifS (line : Nat) (children : List Stmt)
  | switchS (line : Nat) (cases : Nat) (children : List Stmt)
  | other (children : List Stmt)

/-- `struct BranchSite`. -/
structure BranchSite where
  line : Nat
  depth : Nat
  isSwitchStmt : Bool
  switchCases : Nat
deriving DecidableEq, Repr

mutual
/-- The sites recorded by `BranchDepthVisitor` in traversal order:
an `if` at nesting depth ≥ threshold, a `switch` with ≥ 8 cases. -/
def branchSites (threshold depth : Nat) : Stmt → List BranchSite
  | .ifS line children =>
      (if threshold ≤ depth + 1 then [⟨line, depth + 1, false, 0⟩] else []) ++
        branchSitesL threshold (depth + 1) children
  | .switchS line cases children =>
      (if 8 ≤ cases then [⟨line, depth, true, cases⟩] else []) ++
        branchSitesL threshold depth children
  | .other children => branchSitesL threshold depth children
def branchSitesL (threshold depth : Nat) : List Stmt → List BranchSite
  | [] => []
  | s :: rest =>
      branchSites threshold depth s ++ branchSitesL threshold depth rest
end

mutual
/-- `BranchDepthVisitor::maxDepth`: the deepest `if` nesting reached. -/
def branchMaxDepth (depth : Nat) : Stmt → Nat
  | .ifS _ children => max (depth + 1) (branchMaxDepthL (depth + 1) children)
  | .switchS _ _ children => branchMaxDepthL depth children
  | .other children => branchMaxDepthL depth children
def branchMaxDepthL (depth : Nat) : List Stmt → Nat
  | [] => 0
  | s :: rest => max (branchMaxDepth depth s) (branchMaxDepthL depth rest)
end

/-- The diagnostic built for one site in `FL050::analyze`. -/
def fl050Diag (qualName file : String) (maxD : Nat)
    (site : BranchSite) : Diagnostic :=
  let sev := if site.isSwitchStmt then Severity.high
    else if 6 ≤ site.depth then .high
    else .medium
  let escalations :=
    if site.isSwitchStmt then
      ["Large switch (" ++ toString site.switchCases ++
       " cases): BTB capacity pressure, I-cache bloat from jump table expansion"]
    else if 6 ≤ site.depth then
      ["Nesting depth " ++ toString site.depth ++
       ": high branch entropy, compounding misprediction cost"]
    else []
  { ruleID := "FL050",
    title := "Deep Conditional Tree in Hot Path",
    severity := sev,
    confidence := 1/2,
    location := { file := file, line := site.line, column := 0 },
    hardwareReasoning :=
      if site.isSwitchStmt then
        "switch statement with " ++ toString site.switchCases ++
        " cases in hot function '" ++ qualName ++
        "'. Non-constexpr switch generates indirect jump table. BTB must predict target from " ++
        toString site.switchCases ++
        " possibilities. I-cache footprint scales with case count."
      else
        "Conditional nesting depth " ++ toString site.depth ++
        " in hot function '" ++ qualName ++
        "'. Each nested branch is a prediction point. Deep trees create correlated misprediction chains that defeat pattern-based predictors.",
    structuralEvidence := "function=" ++ qualName ++
      "; type=" ++ (if site.isSwitchStmt then "switch" else "nested_if") ++
      "; depth=" ++ toString site.depth ++
      "; max_depth=" ++ toString maxD ++
      (if site.isSwitchStmt then "; cases=" ++ toString site.switchCases else ""),
    mitigation := "Use table-driven dispatch. Flatten conditional logic with early returns. Precompute decision trees. Use __builtin_expect for predictable branches.",
    escalations := escalations }

/-- The emission loop of `FL050::analyze` with its `emittedNested`
deduplication flag: the first nested-if site is emitted, later nested-if
sites are skipped, every large-switch site is emitted. -/
def fl050Emit (qualName file : String) (maxD : Nat) :
    List BranchSite → Bool → List Diagnostic
  | [], _ => []
  | site :: rest, emittedNested =>
      if !site.isSwitchStmt && emittedNested then
        fl050Emit qualName file maxD rest emittedNested
      else
        fl050Diag qualName file maxD site ::
          fl050Emit qualName file maxD rest
            (if site.isSwitchStmt then emittedNested else true)

/-- `FL050_DeepConditionalTree::analyze` (threshold 4). -/
def fl050Analyze (qualName file : String) (hasBody isHot : Bool)
    (body : List Stmt) : List Diagnostic :=
  if !hasBody then []
  else if !isHot then []
  else
    let sites := branchSitesL 4 0 body
    if sites.isEmpty then []
    else fl050Emit qualName file (branchMaxDepthL 0 body) sites false


/-! ## FL010 policy (specification side)

Named policy functions stating, per site, the severity / confidence /
tier policy that the theorems below compare against the emission loop.
They restate the documented policy with the one correction the code
forces: the `+0.05` in-loop confidence bump applies to stores only. -/

/-- Per-site severity policy: stores High (Critical in loop), RMW Medium
(High in loop). -/
def fl010PolicySeverity (site : SeqCstSite) : Severity :=
  if site.opClass == .store then
    (if 0 < site.inLoop then .critical else .high)
  else (if 0 < site.inLoop then .high else .medium)

/-- Per-site confidence policy: stores seed 0.85, +0.05 in loop;
RMW seed 0.55 with no in-loop bump. -/
def fl010PolicyConfidence (site : SeqCstSite) : ℚ :=
  if site.opClass == .store then
    (if 0 < site.inLoop then 9/10 else 17/20)
  else 11/20

/-- Per-site tier policy: Likely for stores, Speculative for RMW. -/
def fl010PolicyTier (site : SeqCstSite) : EvidenceTier :=
  if site.opClass == .store then .likely else .speculative

/-! # Theorems -/

theorem isPrefixOf_iff_exists {p h : List Char} :
    List.isPrefixOf p h = true ↔ ∃ rest, h = p ++ rest := by
  induction p generalizing h with
  | nil => simp [List.isPrefixOf]
  | cons c t ih =>
      cases h with
      | nil => simp [List.isPrefixOf]
      | cons c' t' =>
          simp only [List.isPrefixOf, Bool.and_eq_true, beq_iff_eq, ih,
            List.cons_append, List.cons.injEq]
          constructor
          · rintro ⟨rfl, rest, rfl⟩; exact ⟨rest, rfl, rfl⟩
          · rintro ⟨rest, rfl, rfl⟩; exact ⟨rfl, rest, rfl⟩

theorem findSubFrom_eq_none_iff {pat hay : List Char} {i : Nat} :
    findSubFrom pat hay i = none ↔ ¬ ContainsSub pat hay := by
  induction hay generalizing i with
  | nil =>
      cases hp : List.isPrefixOf pat [] with
      | false =>
          simp only [findSubFrom, hp, Bool.false_eq_true, if_false, true_iff,
            ContainsSub]
          rintro ⟨pre, post, hps⟩
          obtain ⟨hpp, -⟩ := List.append_eq_nil.mp hps.symm
          obtain ⟨-, hpat⟩ := List.append_eq_nil.mp hpp
          subst hpat
          simp [List.isPrefixOf] at hp
      | true =>
          have hpat : pat = [] := by
            rcases isPrefixOf_iff_exists.mp hp with ⟨rest, hr⟩
            exact (List.append_eq_nil.mp hr.symm).1
          subst hpat
          simp only [findSubFrom, hp, if_true, ContainsSub]
          simp only [reduceCtorEq, false_iff, not_not]
          exact ⟨[], [], rfl⟩
  | cons c t ih =>
      cases hp : List.isPrefixOf pat (c :: t) with
      | true =>
          simp only [findSubFrom, hp, if_true]
          simp only [reduceCtorEq, false_iff, not_not]
          rcases isPrefixOf_iff_exists.mp hp with ⟨rest, hr⟩
          exact ⟨[], rest, by simpa using hr⟩
      | false =>
          simp only [findSubFrom, hp, Bool.false_eq_true, if_false]
          rw [ih]
          constructor
          · intro hnot hcon
            rcases hcon with ⟨pre, post, hps⟩
            cases pre with
            | nil =>
                have hpre : List.isPrefixOf pat (c :: t) = true :=
                  isPrefixOf_iff_exists.mpr ⟨post, by simpa using hps⟩
                rw [hpre] at hp; cases hp
            | cons p ps =>
                have ht : t = ps ++ pat ++ post := by
                  have := congrArg List.tail hps
                  simpa using this
                exact hnot ⟨ps, post, ht⟩
          · intro hcon hcont
            rcases hcont with ⟨pre, post, hps⟩
            exact hcon ⟨c :: pre, post, by simp [hps]⟩


/-- C1: for every calibration-store contents and every diagnostic list,
the calibration gate never removes a diagnostic whose severity is High or
Critical and whose evidence tier is Proven: every such diagnostic present
before the gate runs is still present after it, regardless of what
`isKnownFalsePositive` answers. -/
theorem safety_rail_preserved (store : CalibrationFeedbackStore)
    (diags : List Diagnostic) (d : Diagnostic) (hmem : d ∈ diags)
    (hsev : d.severity = .critical ∨ d.severity = .high)
    (htier : d.evidenceTier = .proven) :
    d ∈ calibrationGate store diags := by
  unfold calibrationGate
  refine List.mem_filter.mpr ⟨hmem, ?_⟩
  unfold gateRemoves
  rcases hsev with h | h <;> simp [h, htier]

/-- C1 witness: a concrete Critical + Proven diagnostic survives a gate
whose store would suppress its hazard class. -/
theorem safety_rail_preserved_witness :
    ({ ruleID := "FL002", severity := .critical, evidenceTier := .proven } :
        Diagnostic) ∈
      calibrationGate ⟨[⟨[], .falseSharing, "", 5⟩]⟩
        [{ ruleID := "FL002", severity := .critical, evidenceTier := .proven }] :=
  safety_rail_preserved _ _ _ (List.mem_singleton.mpr rfl) (Or.inl rfl) rfl

/-- C8 counterexample: `isKnownFalsePositive` answers `true` for a query
feature vector `[1]` although the registry's only entry carries the
different fingerprint `[0]` — the answer cannot depend on the fingerprint
as the claim states. -/
theorem isKnownFalsePositive_ignores_features_cex :
    isKnownFalsePositive ⟨[⟨[0], .falseSharing, "", 3⟩]⟩ [1] .falseSharing
      = true ∧
    (⟨[⟨[0], .falseSharing, "", 3⟩]⟩ :
        CalibrationFeedbackStore).falsePositiveRegistry.all
      (fun e => !(e.features == [(1 : ℚ)])) = true := by
  decide

/-- C8 (amended): `isKnownFalsePositive(features, class)` returns `true`
iff the registry holds, for that hazard class, an entry with at least 3
independent refutations; the feature fingerprint is ignored. -/
theorem isKnownFalsePositive_iff_hazardClass
    (store : CalibrationFeedbackStore) (features : List ℚ)
    (hc : HazardClass) :
    isKnownFalsePositive store features hc = true ↔
      ∃ e ∈ store.falsePositiveRegistry,
        e.hazardClass = hc ∧ 3 ≤ e.refutationCount := by
  unfold isKnownFalsePositive
  simp [List.any_eq_true]

/-- C10: `extractFeatures` is total and returns exactly 10 entries in the
fixed order (severity ordinal, confidence, escalation count, then the
seven parsed evidence keys); a key absent from the structural evidence
contributes `0.0`. -/
theorem extractFeatures_shape (d : Diagnostic) :
    (extractFeatures d).length = 10 ∧
    (extractFeatures d).take 3 =
      [(d.severity.ord : ℚ), d.confidence, (d.escalations.length : ℚ)] ∧
    (extractFeatures d).drop 3 =
      featureKeys.map (extractEvidenceValue d.structuralEvidence) ∧
    ∀ k ∈ featureKeys,
      ¬ ContainsSub (k.data ++ ['=']) d.structuralEvidence.data →
        extractEvidenceValue d.structuralEvidence k = 0 := by
  refine ⟨by simp [extractFeatures, featureKeys], by simp [extractFeatures],
    by simp [extractFeatures], ?_⟩
  intro k _ hnc
  unfold extractEvidenceValue
  have hnone : findSub d.structuralEvidence.data (k.data ++ ['=']) = none := by
    unfold findSub
    exact findSubFrom_eq_none_iff.mpr hnc
  rw [hnone]

/-- C10 witness: on the evidence string `"op=x"` the `sizeof` key is
absent and contributes 0, and the vector still has 10 entries. -/
theorem extractFeatures_shape_witness :
    extractEvidenceValue "op=x" "sizeof" = 0 ∧
    (extractFeatures { structuralEvidence := "op=x" }).length = 10 := by
  have h0 : findSubFrom ("sizeof".data ++ ['=']) "op=x".data 0 = none := by
    decide
  refine ⟨(extractFeatures_shape { structuralEvidence := "op=x" }).2.2.2
    "sizeof" (by simp [featureKeys]) (findSubFrom_eq_none_iff.mp h0),
    (extractFeatures_shape { structuralEvidence := "op=x" }).1⟩

/-- C3 counterexample: a complete record whose only field is a bare
function pointer satisfies `hasCallbackMembers`, yet `mayEscapeThread`
returns `false` — the escape model never consults the callback check. -/
theorem mayEscapeThread_callback_cex :
    hasCallbackMembers (.mk true [{ ty := .functionPtrTy }] []) = true ∧
    mayEscapeThread (.mk true [{ ty := .functionPtrTy }] []) = false := by
  decide

/-- C3 (amended): for every complete record with a direct field whose
type is a type-erased callable (`std::function`) or a bare function
pointer, `hasCallbackMembers` returns `true`; `mayEscapeThread` does not
consult this predicate and can return `false` for such records. -/
theorem hasCallbackMembers_of_callable_field (rd : CXXRecord)
    (hc : rd.complete = true)
    (hf : ∃ f ∈ rd.fields, f.ty = .functionPtrTy ∨ f.ty = .stdFunctionTy) :
    hasCallbackMembers rd = true := by
  unfold hasCallbackMembers
  rcases hf with ⟨f, hmem, hty⟩
  simp only [hc, Bool.not_true, Bool.false_eq_true, if_false, List.any_eq_true]
  exact ⟨f, hmem, by rcases hty with h | h <;> simp [h]⟩

/-- C3 witness: the amended claim at the concrete function-pointer
record. -/
theorem hasCallbackMembers_of_callable_field_witness :
    hasCallbackMembers (.mk true [{ ty := .functionPtrTy }] []) = true :=
  hasCallbackMembers_of_callable_field (.mk true [{ ty := .functionPtrTy }] [])
    rfl ⟨{ ty := .functionPtrTy }, by simp [CXXRecord.fields], Or.inl rfl⟩


/-- Frame property of `refineFL010`: only confidence, tier, suppression,
evidence and escalations can change. -/
theorem refineFL010_frame (profiles : ProfileMap) (d : Diagnostic) :
    (refineFL010 profiles d).ruleID = d.ruleID ∧
    (refineFL010 profiles d).title = d.title ∧
    (refineFL010 profiles d).severity = d.severity ∧
    (refineFL010 profiles d).location = d.location := by
  unfold refineFL010
  try dsimp only
  repeat' split
  all_goals exact ⟨rfl, rfl, rfl, rfl⟩

/-- Frame property of `refineFL011`. -/
theorem refineFL011_frame (profiles : ProfileMap) (d : Diagnostic) :
    (refineFL011 profiles d).ruleID = d.ruleID ∧
    (refineFL011 profiles d).title = d.title ∧
    (refineFL011 profiles d).severity = d.severity ∧
    (refineFL011 profiles d).location = d.location := by
  unfold refineFL011
  try dsimp only
  repeat' split
  all_goals exact ⟨rfl, rfl, rfl, rfl⟩

/-- Frame property of `refineFL012`. -/
theorem refineFL012_frame (profiles : ProfileMap) (d : Diagnostic) :
    (refineFL012 profiles d).ruleID = d.ruleID ∧
    (refineFL012 profiles d).title = d.title ∧
    (refineFL012 profiles d).severity = d.severity ∧
    (refineFL012 profiles d).location = d.location := by
  unfold refineFL012
  try dsimp only
  repeat' split
  all_goals exact ⟨rfl, rfl, rfl, rfl⟩

/-- Frame property of `refineFL020`. -/
theorem refineFL020_frame (profiles : ProfileMap) (d : Diagnostic) :
    (refineFL020 profiles d).ruleID = d.ruleID ∧
    (refineFL020 profiles d).title = d.title ∧
    (refineFL020 profiles d).severity = d.severity ∧
    (refineFL020 profiles d).location = d.location := by
  unfold refineFL020
  try dsimp only
  repeat' split
  all_goals exact ⟨rfl, rfl, rfl, rfl⟩

/-- Frame property of `refineFL021` on its non-throwing paths. -/
theorem refineFL021_frame (profiles : ProfileMap) (d d' : Diagnostic)
    (h : refineFL021 profiles d = some d') :
    d'.ruleID = d.ruleID ∧ d'.title = d.title ∧
    d'.severity = d.severity ∧ d'.location = d.location := by
  unfold refineFL021 at h
  try dsimp only at h
  repeat' split at h
  all_goals cases h
  all_goals exact ⟨rfl, rfl, rfl, rfl⟩

/-- Frame property of `refineFL030`. -/
theorem refineFL030_frame (profiles : ProfileMap) (d : Diagnostic) :
    (refineFL030 profiles d).ruleID = d.ruleID ∧
    (refineFL030 profiles d).title = d.title ∧
    (refineFL030 profiles d).severity = d.severity ∧
    (refineFL030 profiles d).location = d.location := by
  unfold refineFL030
  try dsimp only
  repeat' split
  all_goals exact ⟨rfl, rfl, rfl, rfl⟩

/-- Frame property of `refineFL031`. -/
theorem refineFL031_frame (profiles : ProfileMap) (d : Diagnostic) :
    (refineFL031 profiles d).ruleID = d.ruleID ∧
    (refineFL031 profiles d).title = d.title ∧
    (refineFL031 profiles d).severity = d.severity ∧
    (refineFL031 profiles d).location = d.location := by
  unfold refineFL031
  try dsimp only
  repeat' split
  all_goals exact ⟨rfl, rfl, rfl, rfl⟩

/-- Frame property of `refineFL090`. -/
theorem refineFL090_frame (profiles : ProfileMap) (d : Diagnostic) :
    (refineFL090 profiles d).ruleID = d.ruleID ∧
    (refineFL090 profiles d).title = d.title ∧
    (refineFL090 profiles d).severity = d.severity ∧
    (refineFL090 profiles d).location = d.location := by
  unfold refineFL090
  try dsimp only
  repeat' split
  all_goals exact ⟨rfl, rfl, rfl, rfl⟩

/-- C9: for every diagnostic and every map of IR function profiles,
the Diagnostic Refiner leaves the diagnostic's rule id, title, severity
and source location unchanged whenever it returns a refined diagnostic;
only confidence, evidence tier, suppression, structural evidence and
escalations may differ (`refine` is `refineOne` at each position). -/
theorem refineOne_frame (profiles : ProfileMap) (d d' : Diagnostic)
    (h : refineOne profiles d = some d') :
    d'.ruleID = d.ruleID ∧ d'.title = d.title ∧
    d'.severity = d.severity ∧ d'.location = d.location := by
  unfold refineOne at h
  split_ifs at h
  case _ => cases h; exact refineFL010_frame profiles d
  case _ => cases h; exact refineFL011_frame profiles d
  case _ => cases h; exact refineFL012_frame profiles d
  case _ => cases h; exact refineFL020_frame profiles d
  case _ => exact refineFL021_frame profiles d d' h
  case _ => cases h; exact refineFL030_frame profiles d
  case _ => cases h; exact refineFL031_frame profiles d
  case _ => cases h; exact refineFL090_frame profiles d
  case _ => cases h; exact ⟨rfl, rfl, rfl, rfl⟩

/-- C9 witness: the frame property at a concrete FL010 diagnostic and a
concrete profile map. -/
theorem refineOne_frame_witness :
    (refineFL010 [("m", { demangledName := "f", seqCstCount := 1 })]
        { ruleID := "FL010", functionName := "f", severity := .high,
          confidence := 1/2 }).ruleID = "FL010" := by
  have h := refineOne_frame [("m", { demangledName := "f", seqCstCount := 1 })]
    { ruleID := "FL010", functionName := "f", severity := .high,
      confidence := 1/2 }
    (refineFL010 [("m", { demangledName := "f", seqCstCount := 1 })]
      { ruleID := "FL010", functionName := "f", severity := .high,
        confidence := 1/2 })
    (by rfl)
  exact h.1


/-- C2 counterexample: one FL010 diagnostic with a matching profile that
contains a seq_cst instruction.  A first refinement adds `+0.05` and one
escalation; a second run adds both again, so running the refiner twice
differs from running it once on the same IR profiles. -/
theorem refiner_not_idempotent_cex :
    (((refine [("m", { demangledName := "f", seqCstCount := 1 })]
          [{ ruleID := "FL010", functionName := "f", confidence := 1/2 }]).bind
        (refine [("m", { demangledName := "f", seqCstCount := 1 })])).map
      (fun l => l.map (fun d => d.escalations.length))) ≠
    ((refine [("m", { demangledName := "f", seqCstCount := 1 })]
        [{ ruleID := "FL010", functionName := "f", confidence := 1/2 }]).map
      (fun l => l.map (fun d => d.escalations.length))) := by
  decide

/-- C2 (amended): the refiner is not idempotent on refined diagnostics —
a second run re-applies confidence deltas (subject to their clamps) and
appends duplicate escalation entries.  It acts as the identity, and hence
idempotently, on every diagnostic whose rule id is outside the eight
dispatched ids FL010, FL011, FL012, FL020, FL021, FL030, FL031, FL090. -/
theorem refineOne_id_of_undispatched (profiles : ProfileMap)
    (d : Diagnostic)
    (h : ¬ d.ruleID ∈
      ["FL010", "FL011", "FL012", "FL020", "FL021", "FL030", "FL031", "FL090"]) :
    refineOne profiles d = some d ∧
    (refineOne profiles d).bind (refineOne profiles) = refineOne profiles d := by
  simp only [List.mem_cons, List.mem_singleton, not_or] at h
  obtain ⟨h10, h11, h12, h20, h21, h30, h31, h90⟩ := h
  have hid : refineOne profiles d = some d := by
    unfold refineOne
    simp [h10, h11, h12, h20, h21, h30, h31, h90]
  exact ⟨hid, by rw [hid]; simpa using hid⟩

/-- C2 witness: the identity behaviour at a concrete FL001 diagnostic. -/
theorem refineOne_id_of_undispatched_witness :
    refineOne [] { ruleID := "FL001" } = some { ruleID := "FL001" } :=
  (refineOne_id_of_undispatched [] { ruleID := "FL001" } (by decide)).1


/-- C5 counterexample: a seq_cst RMW site inside a loop is emitted with
severity High but confidence 0.55 — the `+0.05` in-loop bump the claim
promises for every site is not applied to RMW sites. -/
theorem fl010_rmw_loop_confidence_cex :
    ((fl010Analyze "f" true true [{ opClass := .rmw, inLoop := 1 }]).map
        (fun d => (d.severity, d.confidence))) = [(.high, 11/20)] ∧
    ¬ ((11 : ℚ)/20 = 11/20 + 1/20) := by
  constructor
  · simp [fl010Analyze, fl010EmitSite]
  · norm_num

/-- Projection of one emission-loop step onto (severity, confidence,
tier): exactly the per-site policy, skipping loads. -/
theorem fl010EmitSite_proj (q : String) (count : Nat) (s : SeqCstSite) :
    (fl010EmitSite q count s).map
        (fun d => (d.severity, d.confidence, d.evidenceTier)) =
      (if s.opClass == .load then []
       else [(fl010PolicySeverity s, fl010PolicyConfidence s, fl010PolicyTier s)]) := by
  unfold fl010EmitSite fl010PolicySeverity fl010PolicyConfidence fl010PolicyTier
  cases hop : s.opClass with
  | load => simp [hop]
  | store =>
      cases hl : s.inLoop with
      | zero => simp [hop, hl]
      | succ n => simp [hop, hl]
  | rmw =>
      cases hl : s.inLoop with
      | zero => simp [hop, hl]
      | succ n => simp [hop, hl]

/-- The emission loop over a site list, projected onto (severity,
confidence, tier). -/
theorem fl010_flatten_proj (q : String) (count : Nat)
    (sites : List SeqCstSite) :
    ((sites.map (fl010EmitSite q count)).flatten).map
        (fun d => (d.severity, d.confidence, d.evidenceTier)) =
      (sites.filter (fun s => !(s.opClass == .load))).map
        (fun s => (fl010PolicySeverity s, fl010PolicyConfidence s,
          fl010PolicyTier s)) := by
  induction sites with
  | nil => simp
  | cons s rest ih =>
      simp only [List.map_cons, List.flatten_cons, List.map_append, ih,
        fl010EmitSite_proj, List.filter_cons]
      cases hop : (s.opClass == Faultline.AtomicOpClass.load) <;> simp [hop]

/-- C5 (amended): on a hot function FL010 never emits for a seq_cst load;
each store site is flagged High (Critical in loop) with confidence 0.85
(0.90 in loop), each RMW site Medium (High in loop) with confidence 0.55
— the `+0.05` in-loop bump applies to stores only; the tier is Likely for
stores and Speculative for RMW. -/
theorem fl010_policy_characterization (q : String)
    (sites : List SeqCstSite) :
    (fl010Analyze q true true sites).map
        (fun d => (d.severity, d.confidence, d.evidenceTier)) =
      (sites.filter (fun s => !(s.opClass == .load))).map
        (fun s => (fl010PolicySeverity s, fl010PolicyConfidence s,
          fl010PolicyTier s)) := by
  unfold fl010Analyze
  cases hs : sites with
  | nil => simp
  | cons s rest =>
      simp only [Bool.not_true, Bool.false_eq_true, if_false,
        List.isEmpty_cons]
      exact fl010_flatten_proj q (s :: rest).length (s :: rest)

/-- C6: evaluation of FL050 on a hot function with five levels of nested
`if` (lines 1..5).  The single nesting diagnostic is emitted at the FIRST
site reaching the threshold — line 4, evidence `depth=4; max_depth=5`,
severity Medium — not at the deepest `if` (line 5, `depth=5`) as the
claim, the code's own deduplication comment, and scenario 6 of the
specification state. -/
theorem fl050_five_nested_ifs_eval :
    (fl050Analyze "f" "a.cpp" true true
        [.ifS 1 [.ifS 2 [.ifS 3 [.ifS 4 [.ifS 5 []]]]]]).map
      (fun d => (d.location.line, d.severity, d.structuralEvidence)) =
    [(4, Severity.medium,
      "function=f; type=nested_if; depth=4; max_depth=5")] := by
  decide

/-- C7 counterexample: a complete 192-byte record with an atomic field
(all three signals) yields exactly one FL090 diagnostic — but with
confidence 0.90 and the default evidence tier Speculative, not the
claimed 0.88 and Likely. -/
theorem fl090_confidence_tier_cex :
    ((fl090Analyze
        { name := "S", record := (.mk true [{ ty := .atomicTy }] []),
          sizeBytes := 192, file := "a.cpp", line := 1, column := 1 }).map
      (fun d => (d.severity, d.evidenceTier))) =
        [(Severity.critical, EvidenceTier.speculative)] ∧
    ((fl090Analyze
        { name := "S", record := (.mk true [{ ty := .atomicTy }] []),
          sizeBytes := 192, file := "a.cpp", line := 1, column := 1 }).map
      (fun d => d.confidence)) = [9/10] ∧
    ¬ ((9 : ℚ)/10 = 22/25) ∧
    ¬ (EvidenceTier.speculative = EvidenceTier.likely) := by
  refine ⟨by decide, rfl, by norm_num, by decide⟩

/-- C7 (amended): for every complete, non-implicit, non-lambda record on
which all three FL090 signals hold (size > 128 bytes, i.e. ≥ 3 cache
lines spanned; an atomic member; escape model positive), FL090 emits
exactly one diagnostic with severity Critical, confidence 0.90 and the
default evidence tier Speculative; with fewer than three signals it emits
nothing. -/
theorem fl090_amended (rd : RecordDeclInfo)
    (hc : rd.record.complete = true) (hi : rd.isImplicit = false)
    (hl : rd.isLambda = false) :
    (3 ≤ fl090SignalCount rd →
      (fl090Analyze rd).map
          (fun d => (d.severity, d.confidence, d.evidenceTier)) =
        [(Severity.critical, (9 : ℚ)/10, EvidenceTier.speculative)]) ∧
    (fl090SignalCount rd < 3 → fl090Analyze rd = []) := by
  constructor
  · intro h3
    unfold fl090Analyze
    simp [hc, hi, hl, Nat.not_lt.mpr h3]
  · intro hlt
    unfold fl090Analyze
    simp [hc, hi, hl, hlt]

/-- C7 witness: the amended claim at the concrete 192-byte record. -/
theorem fl090_amended_witness :
    (fl090Analyze
        { name := "S", record := (.mk true [{ ty := .atomicTy }] []),
          sizeBytes := 192, file := "a.cpp", line := 1, column := 1 }).map
        (fun d => (d.severity, d.confidence, d.evidenceTier)) =
      [(Severity.critical, (9 : ℚ)/10, EvidenceTier.speculative)] :=
  (fl090_amended
    { name := "S", record := (.mk true [{ ty := .atomicTy }] []),
      sizeBytes := 192, file := "a.cpp", line := 1, column := 1 }
    rfl rfl rfl).1 (by decide)


theorem sum_map_add_distrib {α : Type} (l : List α) (f g : α → Nat) :
    (l.map (fun x => f x + g x)).sum = (l.map f).sum + (l.map g).sum := by
  induction l with
  | nil => simp
  | cons x t ih => simp [ih]; omega

theorem sum_indicator_eq_length_filter {α : Type} (l : List α)
    (p : α → Bool) :
    (l.map (fun x => if p x then 1 else 0)).sum = (l.filter p).length := by
  induction l with
  | nil => simp
  | cons x t ih =>
      cases hp : p x <;> simp [List.filter_cons, hp, ih] <;> omega

/-- Double counting: summing per-bucket field counts equals summing
per-field bucket counts. -/
theorem sum_filter_length_swap {α : Type} (n : Nat) (fs : List α)
    (p : Nat → α → Bool) :
    ((List.range n).map (fun i => (fs.filter (p i)).length)).sum =
      (fs.map (fun f => ((List.range n).filter (fun i => p i f)).length)).sum := by
  induction fs with
  | nil => simp
  | cons f t ih =>
      have hsplit : ∀ i : Nat, ((f :: t).filter (p i)).length =
          (if p i f then 1 else 0) + (t.filter (p i)).length := by
        intro i; cases hp : p i f <;> simp [List.filter_cons, hp] <;> omega
      calc ((List.range n).map
              (fun i => ((f :: t).filter (p i)).length)).sum
          = ((List.range n).map (fun i =>
              (if p i f then 1 else 0) + (t.filter (p i)).length)).sum := by
            simp only [hsplit]
        _ = ((List.range n).map (fun i => if p i f then 1 else 0)).sum +
            ((List.range n).map (fun i => (t.filter (p i)).length)).sum :=
            sum_map_add_distrib (List.range n) _ _
        _ = ((List.range n).filter (fun i => p i f)).length +
            (t.map (fun x =>
              ((List.range n).filter (fun i => p i x)).length)).sum := by
            rw [sum_indicator_eq_length_filter, ih]
        _ = ((f :: t).map (fun x =>
              ((List.range n).filter (fun i => p i x)).length)).sum := by
            simp

/-- Counting an interval inside `range n`. -/
theorem length_filter_range_interval (n a b : Nat) :
    ((List.range n).filter
        (fun i => decide (a ≤ i) && decide (i ≤ b))).length =
      min n (b + 1) - min n a := by
  induction n with
  | zero => simp
  | succ m ih =>
      rw [List.range_succ, List.filter_append, List.length_append, ih]
      by_cases h1 : a ≤ m
      · by_cases h2 : m ≤ b
        · simp [List.filter_cons, h1, h2]
          omega
        · simp [List.filter_cons, h1, h2]
          omega
      · simp [List.filter_cons, h1]
        omega

/-- Bounds on a computed field entry of a well-formed record: its bucket
range is non-empty and stays below `linesSpanned`. -/
theorem mkFieldLineEntry_bounds (L sizeBytes : Nat) (f : CacheFieldInput)
    (hL : 0 < L) (hsz : 0 < f.sizeBytes)
    (hin : f.offsetBytes + f.sizeBytes ≤ sizeBytes) :
    (mkFieldLineEntry L f).startLine ≤ (mkFieldLineEntry L f).endLine ∧
    (mkFieldLineEntry L f).endLine < (sizeBytes + L - 1) / L := by
  unfold mkFieldLineEntry
  have hpos : 0 < f.offsetBytes + f.sizeBytes := by omega
  simp only [hpos, if_true, if_pos hpos]
  constructor
  · exact Nat.div_le_div_right (by omega)
  · have h2 : (f.offsetBytes + f.sizeBytes - 1) / L ≤ (sizeBytes - 1) / L :=
      Nat.div_le_div_right (by omega)
    have h3 : sizeBytes + L - 1 = (sizeBytes - 1) + L := by omega
    have h4 : (sizeBytes + L - 1) / L = (sizeBytes - 1) / L + 1 := by
      rw [h3, Nat.add_div_right _ hL]
    omega

/-- C4: bucket coverage of the Cache-Line Map.  For a complete record
(line width positive, every collected field non-empty and inside the
record size): summing `bucket.fields.length` over all buckets equals
summing `endLine − startLine + 1` over all field entries; every entry's
bucket range is non-empty and below `linesSpanned`; and a field entry
lies in bucket `i` exactly when `startLine ≤ i ≤ endLine`, so an entry
spanning `k` buckets appears in exactly those `k` buckets. -/
theorem cacheLineMap_bucket_coverage (L sizeBytes : Nat)
    (inputs : List CacheFieldInput) (hL : 0 < L)
    (hwf : ∀ f ∈ inputs,
      0 < f.sizeBytes ∧ f.offsetBytes + f.sizeBytes ≤ sizeBytes) :
    (((cacheLineMap L sizeBytes inputs).buckets.map
        (fun b => b.fields.length)).sum =
      ((cacheLineMap L sizeBytes inputs).fields.map
        (fun f => f.endLine - f.startLine + 1)).sum) ∧
    (∀ f ∈ (cacheLineMap L sizeBytes inputs).fields,
      f.startLine ≤ f.endLine ∧
        f.endLine < (cacheLineMap L sizeBytes inputs).linesSpanned) ∧
    (∀ b ∈ (cacheLineMap L sizeBytes inputs).buckets, ∀ f,
      f ∈ b.fields ↔
        (f ∈ (cacheLineMap L sizeBytes inputs).fields ∧
          f.startLine ≤ b.lineIndex ∧ b.lineIndex ≤ f.endLine)) := by
  have hbounds : ∀ f ∈ (cacheLineMap L sizeBytes inputs).fields,
      f.startLine ≤ f.endLine ∧
        f.endLine < (cacheLineMap L sizeBytes inputs).linesSpanned := by
    intro f hf
    simp only [cacheLineMap, List.mem_map] at hf
    rcases hf with ⟨g, hg, rfl⟩
    exact mkFieldLineEntry_bounds L sizeBytes g hL (hwf g hg).1 (hwf g hg).2
  refine ⟨?_, hbounds, ?_⟩
  · simp only [cacheLineMap, List.map_map]
    have hcomp : ((List.range ((sizeBytes + L - 1) / L)).map
        ((fun b => b.fields.length) ∘
          mkBucket (inputs.map (mkFieldLineEntry L)))).sum =
      ((List.range ((sizeBytes + L - 1) / L)).map
        (fun i => ((inputs.map (mkFieldLineEntry L)).filter
          (fun f => decide (f.startLine ≤ i) && decide (i ≤ f.endLine))).length)).sum := by
      rfl
    rw [hcomp, sum_filter_length_swap, List.map_map]
    apply congrArg
    apply List.map_congr_left
    intro g hg
    have hb := mkFieldLineEntry_bounds L sizeBytes g hL (hwf g hg).1
      (hwf g hg).2
    simp only [Function.comp]
    rw [length_filter_range_interval]
    omega
  · intro b hb f
    simp only [cacheLineMap, List.mem_map] at hb
    rcases hb with ⟨i, hi, rfl⟩
    simp only [mkBucket, bucketFields, List.mem_filter, cacheLineMap]
    constructor
    · rintro ⟨hmem, hcond⟩
      simp only [Bool.and_eq_true, decide_eq_true_eq] at hcond
      exact ⟨hmem, hcond.1, hcond.2⟩
    · rintro ⟨hmem, h1, h2⟩
      exact ⟨hmem, by simp [h1, h2]⟩

/-- C4 witness: coverage at a concrete two-field 128-byte record with a
straddling field. -/
theorem cacheLineMap_bucket_coverage_witness :
    ((cacheLineMap 64 128
        [{ offsetBytes := 0, sizeBytes := 8 },
         { offsetBytes := 60, sizeBytes := 8 }]).buckets.map
      (fun b => b.fields.length)).sum =
    ((cacheLineMap 64 128
        [{ offsetBytes := 0, sizeBytes := 8 },
         { offsetBytes := 60, sizeBytes := 8 }]).fields.map
      (fun f => f.endLine - f.startLine + 1)).sum :=
  (cacheLineMap_bucket_coverage 64 128
    [{ offsetBytes := 0, sizeBytes := 8 },
     { offsetBytes := 60, sizeBytes := 8 }]
    (by decide) (by decide)).1


end Faultline
